import Mathlib

/-!
Shallow embedding of the risk-scoring engine in
`src/api_showcase/risk_score/calculate_risk_scores.py`.

Strings are modelled by Lean `String` (a structure over `List Char`); the
Python `str` methods used by the source (`strip`, `split`, `count`, `lower`,
`isdigit`, `int()` on digit strings, `lstrip`) are modelled character by
character on `List Char`, restricted to ASCII, below.  Python's ints are
modelled by `Nat` (every number produced by the source is a sum of
non-negative parsed points) and Python's float division together with
`round(x, 4)` is modelled exactly over `ℚ` with round-half-to-even.
-/

namespace RiskScore

/-- Model of Python's whitespace test used by `str.strip`: the code points
on which `str.isspace` holds — ASCII whitespace, the separator control
characters `\x1c`-`\x1f`, and the Unicode space characters. -/
def pyIsSpace (c : Char) : Bool :=
  decide (c.toNat ∈ [9, 10, 11, 12, 13, 28, 29, 30, 31, 32, 133, 160, 5760,
    8192, 8193, 8194, 8195, 8196, 8197, 8198, 8199, 8200, 8201, 8202,
    8232, 8233, 8239, 8287, 12288])

/-- Model of Python's `str.isdigit` membership test for one character,
restricted to the ASCII digits `'0'..'9'` — the decimal digits, on which
`int()` succeeds.  Python's `str.isdigit` also accepts further Unicode digit
characters such as the superscript two, and on those `int()` then raises
`ValueError`; that discrepancy is recorded as a defect of the code below,
and the model keeps the decimal subset, so the model's parser is total
where the program can raise. -/
def pyIsDigitChar (c : Char) : Bool :=
  decide (48 ≤ c.toNat) && decide (c.toNat ≤ 57)

/-- Model of Python's `str.isdigit`: non-empty and all characters digits. -/
def pyIsDigit (l : List Char) : Bool :=
  !l.isEmpty && l.all pyIsDigitChar

/-- Model of Python's `int()` applied to a string of decimal digits. -/
def pyIntOfDigits (l : List Char) : Nat :=
  l.foldl (fun a c => 10 * a + (c.toNat - 48)) 0

/-- Model of Python's `str.count` for a single-character needle. -/
def pyCount (c : Char) (l : List Char) : Nat :=
  l.count c

/-- Model of Python's `str.strip()`: drop whitespace from both ends. -/
def pyStrip (l : List Char) : List Char :=
  ((l.dropWhile pyIsSpace).reverse.dropWhile pyIsSpace).reverse

/-- Model of Python's `str.split(sep)` for a one-character separator: the
result always has one more part than there are separator occurrences, and
empty parts are kept. -/
def pySplit (c : Char) : List Char → List (List Char)
  | [] => [[]]
  | a :: rest =>
    if a = c then [] :: pySplit c rest
    else
      match pySplit c rest with
      | r :: rs => (a :: r) :: rs
      | [] => [[a]]

/-- Model of Python's `str.lower` on one ASCII character. -/
def pyLowerChar (c : Char) : Char :=
  if 65 ≤ c.toNat ∧ c.toNat ≤ 90 then Char.ofNat (c.toNat + 32) else c

/-- Model of Python's `str.lower` on a whole string. -/
def pyLower (l : List Char) : List Char :=
  l.map pyLowerChar

/-- Model of Python's `str.lstrip(chars)` for a one-character set: drop every
leading occurrence of that character. -/
def pyLstrip (l : List Char) (c : Char) : List Char :=
  l.dropWhile (fun a => a == c)

/-- Result of `parse_identifier_fields`: the dictionary
`{points, is_ko, is_plausible}`. -/
structure ParsedFields where
  points : Nat
  is_ko : Bool
  is_plausible : Bool

/-- Embedding of `parse_identifier_fields` (lines 1-20 of the source): on an
empty string or one with fewer than three pipes, the zero-value result;
otherwise split on pipes, strip each part, and read fields 1, 2 and 3. -/
def parse_identifier_fields (identifier : String) : ParsedFields :=
  if identifier = "" ∨ pyCount '|' identifier.data < 3 then
    ⟨0, false, false⟩
  else
    let parts := (pySplit '|' identifier.data).map pyStrip
    let p1 := parts.getD 1 []
    let p2 := parts.getD 2 []
    let p3 := parts.getD 3 []
    ⟨if pyIsDigit p1 then pyIntOfDigits p1 else 0,
     pyLower p2 == "true".data,
     pyLower p3 == "true".data⟩

/-- A node of the questionnaire tree: the dictionary keys the source reads
(`document_class_display_name`, `document_class_identifier_by_organization`,
`value`, `children`), with `Option` for a key that may be absent and `[]`
standing for an absent or empty child list. -/
inductive Node where
  | mk (document_class_display_name : Option String)
       (document_class_identifier_by_organization : Option String)
       (value : Option String)
       (children : List Node)

/-- Key `document_class_display_name` of a node. -/
def Node.document_class_display_name : Node → Option String
  | .mk d _ _ _ => d

/-- Key `document_class_identifier_by_organization` of a node. -/
def Node.document_class_identifier_by_organization : Node → Option String
  | .mk _ i _ _ => i

/-- Key `value` of a node. -/
def Node.value : Node → Option String
  | .mk _ _ v _ => v

/-- Key `children` of a node. -/
def Node.children : Node → List Node
  | .mk _ _ _ c => c

/-- The loop of `get_yes_no_value` (lines 32-35): scan the given children in
order for the first whose display name is exactly `"Yes/No"` and compare that
child's value, lowercased, with `"true"`; default to `true` at the end. -/
def get_yes_no_value_loop : List Node → Bool
  | [] => true
  | child :: rest =>
    if Node.document_class_display_name child = some "Yes/No" then
      pyLower ((Node.value child).getD "").data == "true".data
    else
      get_yes_no_value_loop rest

/-- Embedding of `get_yes_no_value` (lines 22-35): the scan runs over the
node's immediate children only. -/
def get_yes_no_value (node : Node) : Bool :=
  get_yes_no_value_loop (Node.children node)

/-- A collected question: the dictionary
`{identifier, points, is_ko, is_plausible, yes_no_value, node}` built by
`collect_questions`. -/
structure Question where
  identifier : String
  points : Nat
  is_ko : Bool
  is_plausible : Bool
  yes_no_value : Bool
  node : Node

/-- Embedding of `collect_questions` (lines 49-81): for each child, if its
identifier key is present, non-empty and contains a pipe, emit one question
from the parsed fields and the resolved yes/no value; then, when the child
has children, recurse into them; finally continue with the remaining
siblings. -/
def collect_questions : List Node → List Question
  | [] => []
  | Node.mk dn ident v ch :: rest =>
    let child := Node.mk dn ident v ch
    let here : List Question :=
      match ident with
      | some identifier =>
        if identifier ≠ "" ∧ '|' ∈ identifier.data then
          match parse_identifier_fields identifier with
          | ⟨pts, ko, pl⟩ => [⟨identifier, pts, ko, pl, get_yes_no_value child, child⟩]
        else []
      | none => []
    let below : List Question := if ch.isEmpty then [] else collect_questions ch
    here ++ (below ++ collect_questions rest)
  termination_by l => sizeOf l
  decreasing_by
    all_goals simp_wf
    all_goals omega

/-- Embedding of `calculate_total_risk_score` (lines 83-97): the sum of the
points of the questions that are KO and answered no. -/
def calculate_total_risk_score (questions : List Question) : Nat :=
  ((questions.filter fun q => q.is_ko && !q.yes_no_value).map Question.points).sum

/-- Embedding of `count_questions_answered_no` (lines 99-109). -/
def count_questions_answered_no (questions : List Question) : Nat :=
  questions.countP fun q => !q.yes_no_value

/-- Embedding of `count_ko_questions_answered_no` (lines 111-121). -/
def count_ko_questions_answered_no (questions : List Question) : Nat :=
  questions.countP fun q => q.is_ko && !q.yes_no_value

/-- Embedding of `count_plausible_checks_answered_no` (lines 123-133). -/
def count_plausible_checks_answered_no (questions : List Question) : Nat :=
  questions.countP fun q => q.is_plausible && !q.yes_no_value

/-- Round-half-to-even on a rational, the tie-breaking rule of Python's
builtin `round`. -/
def roundHalfEven (q : ℚ) : ℤ :=
  let f := ⌊q⌋
  if q - f < 1 / 2 then f
  else if 1 / 2 < q - f then f + 1
  else if f % 2 = 0 then f else f + 1

/-- Model of Python's `round(x, 4)`, over exact rationals. -/
def round4 (q : ℚ) : ℚ :=
  (roundHalfEven (q * 10000) : ℚ) / 10000

/-- The category metrics dictionary returned by
`calculate_category_metrics`. -/
structure CategoryMetrics where
  category_name : String
  max_total_risk_points : Nat
  total_risk_score : Nat
  risk_ratio : ℚ

/-- Embedding of `calculate_category_metrics` (lines 135-157). -/
def calculate_category_metrics (category_node : Node) : CategoryMetrics :=
  let questions := collect_questions (Node.children category_node)
  let max_points := (questions.map Question.points).sum
  let risk_score := calculate_total_risk_score questions
  let risk_ratio : ℚ :=
    if max_points > 0 then (risk_score : ℚ) / (max_points : ℚ) else 0
  ⟨(Node.document_class_identifier_by_organization category_node).getD
      ((Node.document_class_display_name category_node).getD "Unknown"),
   max_points, risk_score, round4 risk_ratio⟩

/-- The `upload` section of the input payload. -/
structure Upload where
  document_id_by_organization : Option String

/-- The `document` section of the input payload. -/
structure DocumentData where
  document_id : Option String
  document_class : Option String
  children : List Node

/-- The whole input payload handed to `analyze_document`. -/
structure Payload where
  upload : Option Upload
  document : Option DocumentData

/-- Embedding of `get_document_id` (lines 37-47). -/
def get_document_id (document : DocumentData) : String :=
  document.document_id.getD ""

/-- The report dictionary returned by `analyze_document`. -/
structure DocumentReport where
  document_id : String
  filename : String
  assessment : String
  number_of_questions : Nat
  number_of_ko_questions : Nat
  number_of_plausible_checks : Nat
  number_of_questions_answered_no : Nat
  number_of_ko_questions_answered_no : Nat
  number_of_plausible_checks_answered_no : Nat
  is_plausible : Bool
  max_total_risk_points : Nat
  total_risk_score : Nat
  risk_ratio : ℚ
  categories : List CategoryMetrics

/-- The concatenation, in order, of the questions collected from each
top-level category's children — the `all_questions` list of
`analyze_document` (lines 180-183). -/
def document_questions (root_children : List Node) : List Question :=
  (root_children.map fun category => collect_questions (Node.children category)).flatten

/-- Embedding of `analyze_document` (lines 159-221). -/
def analyze_document (data : Payload) : DocumentReport :=
  let upload_data := data.upload.getD ⟨none⟩
  let document := data.document.getD ⟨none, none, []⟩
  let document_id := get_document_id document
  let filename := upload_data.document_id_by_organization.getD ""
  let assessment := String.mk (pyLstrip (document.document_class.getD "").data '/')
  let root_children := document.children
  let all_questions := document_questions root_children
  let number_of_questions := all_questions.length
  let number_of_ko_questions := all_questions.countP fun q => q.is_ko
  let number_of_plausible_checks := all_questions.countP fun q => q.is_plausible
  let number_of_questions_answered_no := count_questions_answered_no all_questions
  let number_of_ko_questions_answered_no := count_ko_questions_answered_no all_questions
  let number_of_plausible_checks_answered_no :=
    count_plausible_checks_answered_no all_questions
  let is_plausible := number_of_plausible_checks_answered_no == 0
  let max_total_risk_points := (all_questions.map Question.points).sum
  let total_risk_score := calculate_total_risk_score all_questions
  let risk_ratio : ℚ :=
    if max_total_risk_points > 0 then
      (total_risk_score : ℚ) / (max_total_risk_points : ℚ)
    else 0
  let category_metrics := root_children.map calculate_category_metrics
  ⟨document_id, filename, assessment, number_of_questions, number_of_ko_questions,
   number_of_plausible_checks, number_of_questions_answered_no,
   number_of_ko_questions_answered_no, number_of_plausible_checks_answered_no,
   is_plausible, max_total_risk_points, total_risk_score, round4 risk_ratio,
   category_metrics⟩

end RiskScore

namespace RiskScore

/-! ### Helper lemmas shared by several results -/

/-- The character list of a built string is the list it was built from. -/
theorem string_mk_data (l : List Char) : (String.mk l).data = l := rfl

/-- `round(0, 4)` is `0`. -/
theorem round4_zero : round4 0 = 0 := by
  norm_num [round4, roundHalfEven]

/-- The one-step equation of `collect_questions` on a non-empty forest, with
the node's constructor exposed. -/
theorem collect_questions_cons_eq (dn ident v : Option String) (ch rest : List Node) :
    collect_questions (Node.mk dn ident v ch :: rest) =
      (match ident with
       | some identifier =>
         if identifier ≠ "" ∧ '|' ∈ identifier.data then
           match parse_identifier_fields identifier with
           | ⟨pts, ko, pl⟩ =>
             [⟨identifier, pts, ko, pl, get_yes_no_value (Node.mk dn ident v ch),
               Node.mk dn ident v ch⟩]
         else []
       | none => []) ++
      ((if ch.isEmpty then [] else collect_questions ch) ++ collect_questions rest) := by
  rw [collect_questions.eq_def]

/-- `collect_questions` of the empty forest is empty. -/
theorem collect_questions_nil : collect_questions [] = [] :=
  collect_questions.eq_1

end RiskScore

namespace RiskScore

/-! ### Claims about the document-level aggregates -/

/-- Claim C1: for every document payload, the document-level
`total_risk_score` returned by `analyze_document` is the sum of `points`
over exactly the collected questions with `is_ko` true and `yes_no_value`
false, and `max_total_risk_points` is the sum of `points` over all collected
questions. -/
theorem analyze_document_aggregation_law (data : Payload) :
    (analyze_document data).total_risk_score =
      (((document_questions (data.document.getD ⟨none, none, []⟩).children).filter
          fun q => q.is_ko && !q.yes_no_value).map Question.points).sum ∧
    (analyze_document data).max_total_risk_points =
      ((document_questions (data.document.getD ⟨none, none, []⟩).children).map
          Question.points).sum :=
  ⟨rfl, rfl⟩

/-- Claim C2: for every payload and every category node, the document-level
and the category-level `risk_ratio` are the 4-decimal rounding of
`total_risk_score / max_total_risk_points` guarded by a positivity test on
the denominator, and whenever the denominator is zero the ratio is `0` — at
both levels the division branch is never reached and the total functions
raise nothing. -/
theorem analyze_document_risk_ratio_law (data : Payload) (category : Node) :
    ((analyze_document data).risk_ratio =
      round4 (if (analyze_document data).max_total_risk_points > 0 then
          ((analyze_document data).total_risk_score : ℚ) /
            ((analyze_document data).max_total_risk_points : ℚ)
        else 0)) ∧
    ((analyze_document data).max_total_risk_points = 0 →
      (analyze_document data).risk_ratio = 0) ∧
    ((calculate_category_metrics category).risk_ratio =
      round4 (if (calculate_category_metrics category).max_total_risk_points > 0 then
          ((calculate_category_metrics category).total_risk_score : ℚ) /
            ((calculate_category_metrics category).max_total_risk_points : ℚ)
        else 0)) ∧
    ((calculate_category_metrics category).max_total_risk_points = 0 →
      (calculate_category_metrics category).risk_ratio = 0) := by
  refine ⟨rfl, ?_, rfl, ?_⟩
  · intro h
    have h1 : (analyze_document data).risk_ratio =
        round4 (if (analyze_document data).max_total_risk_points > 0 then
            ((analyze_document data).total_risk_score : ℚ) /
              ((analyze_document data).max_total_risk_points : ℚ)
          else 0) := rfl
    rw [h1, h]
    simpa using round4_zero
  · intro h
    have h1 : (calculate_category_metrics category).risk_ratio =
        round4 (if (calculate_category_metrics category).max_total_risk_points > 0 then
            ((calculate_category_metrics category).total_risk_score : ℚ) /
              ((calculate_category_metrics category).max_total_risk_points : ℚ)
          else 0) := rfl
    rw [h1, h]
    simpa using round4_zero

/-- Witness for C2 at a payload with no questions at all and at a childless
category node: both denominators are zero and both ratios are zero. -/
theorem analyze_document_risk_ratio_law_witness :
    ((analyze_document ⟨none, none⟩).max_total_risk_points = 0 ∧
     (analyze_document ⟨none, none⟩).risk_ratio = 0) ∧
    ((calculate_category_metrics
        (Node.mk none none none [])).max_total_risk_points = 0 ∧
     (calculate_category_metrics (Node.mk none none none [])).risk_ratio = 0) := by
  have hcat : (calculate_category_metrics
      (Node.mk none none none [])).max_total_risk_points = 0 := by
    simp [calculate_category_metrics, Node.children, collect_questions_nil]
  exact ⟨⟨rfl,
      (analyze_document_risk_ratio_law ⟨none, none⟩
        (Node.mk none none none [])).2.1 rfl⟩,
    ⟨hcat,
      (analyze_document_risk_ratio_law ⟨none, none⟩
        (Node.mk none none none [])).2.2.2 hcat⟩⟩

/-- Claim C9: the document-level `is_plausible` flag is true exactly when no
collected question is flagged as a plausibility check and answered no. -/
theorem analyze_document_plausibility_law (data : Payload) :
    DocumentReport.is_plausible (analyze_document data) = true ↔
      (document_questions (data.document.getD ⟨none, none, []⟩).children).countP
        (fun q => q.is_plausible && !q.yes_no_value) = 0 := by
  exact beq_iff_eq

end RiskScore

namespace RiskScore

/-- The emission step of `collect_questions` for one node, in isolation: the
question the node itself contributes, if any. -/
def node_question (child : Node) : List Question :=
  match Node.document_class_identifier_by_organization child with
  | some identifier =>
    if identifier ≠ "" ∧ '|' ∈ identifier.data then
      match parse_identifier_fields identifier with
      | ⟨pts, ko, pl⟩ => [⟨identifier, pts, ko, pl, get_yes_no_value child, child⟩]
    else []
  | none => []

/-- Claim C7: the yes/no resolver scans only the node's immediate children,
in order, for the first child whose display name is exactly `"Yes/No"`, and
returns whether that child's value lowercased equals `"true"`; with no such
child it returns `true`. -/
theorem get_yes_no_value_scan (node : Node) :
    get_yes_no_value node =
      match (Node.children node).find?
          (fun c => decide (Node.document_class_display_name c = some "Yes/No")) with
      | some c => pyLower ((Node.value c).getD "").data == "true".data
      | none => true := by
  unfold get_yes_no_value
  induction Node.children node with
  | nil => rfl
  | cons a l ih =>
    by_cases h : Node.document_class_display_name a = some "Yes/No"
    · simp [get_yes_no_value_loop, List.find?_cons, h]
    · simp [get_yes_no_value_loop, List.find?_cons, h, ih]

/-- Claim C8: `collect_questions` on a non-empty forest contributes the head
node's own question (when it emits one), then everything collected from the
head node's entire subtree, then everything from the remaining siblings —
recursion into children happens regardless of whether the node emitted. -/
theorem collect_questions_recursion (child : Node) (rest : List Node) :
    collect_questions (child :: rest) =
      node_question child ++
        (collect_questions (Node.children child) ++ collect_questions rest) := by
  cases child with
  | mk dn ident v ch =>
    rw [collect_questions_cons_eq]
    cases hch : ch with
    | nil =>
      simp [node_question, Node.children, Node.document_class_identifier_by_organization,
        collect_questions_nil]
    | cons x xs =>
      simp [node_question, Node.children, Node.document_class_identifier_by_organization]

end RiskScore

namespace RiskScore

/-! ### Claims about nodes whose identifiers carry no scoring semantics -/

/-- A childless node whose identifier `"a|b"` holds one pipe, hence fewer
than the three separators the claim speaks of. -/
def few_pipes_node : Node := Node.mk none (some "a|b") none []

/-- Counterexample to claim C3 as stated: the identifier `"a|b"` has fewer
than 3 pipe separators, yet `collect_questions` emits one question for the
node carrying it. -/
theorem collect_questions_few_pipes_cex :
    pyCount '|' "a|b".data < 3 ∧
    (collect_questions [few_pipes_node]).length = 1 := by
  constructor
  · decide
  · rw [few_pipes_node, collect_questions_cons_eq]
    simp only [collect_questions_nil]
    decide

/-- Claim C3 as amended: a node whose identifier is missing, empty, or
contains no `'|'` at all emits no question of its own — its subtree is still
scanned — while any identifier containing at least one pipe emits one. -/
theorem collect_questions_no_pipe (node : Node) (rest : List Node)
    (h : Node.document_class_identifier_by_organization node = none ∨
      ∃ s, Node.document_class_identifier_by_organization node = some s ∧
        (s = "" ∨ '|' ∉ s.data)) :
    collect_questions (node :: rest) =
      collect_questions (Node.children node) ++ collect_questions rest := by
  cases node with
  | mk dn ident v ch =>
    simp only [Node.document_class_identifier_by_organization] at h
    simp only [Node.children]
    cases ident with
    | none =>
      rw [collect_questions_cons_eq]
      cases ch with
      | nil => simp [collect_questions_nil]
      | cons x xs => simp
    | some s =>
      rw [collect_questions_cons_eq]
      have hcond : ¬(s ≠ "" ∧ '|' ∈ s.data) := by
        rcases h with h | ⟨t, ht, hc⟩
        · exact absurd h (by simp)
        · cases Option.some.inj ht
          rcases hc with h1 | h1
          · exact fun hx => hx.1 h1
          · exact fun hx => h1 hx.2
      simp only [hcond, if_false]
      cases ch with
      | nil => simp [collect_questions_nil]
      | cons x xs => simp

/-- Witness for the amended C3 at a node with identifier `"abc"` (no pipe):
nothing is emitted beyond the (empty) child and sibling scans. -/
theorem collect_questions_no_pipe_witness :
    collect_questions [Node.mk none (some "abc") none []] =
      collect_questions (Node.children (Node.mk none (some "abc") none [])) ++
        collect_questions [] :=
  collect_questions_no_pipe _ _ (Or.inr ⟨"abc", rfl, Or.inr (by decide)⟩)

/-! ### Claims about the assessment field -/

/-- Definition following the claim's words for C4: `document_class` with at
most one single leading `'/'` removed. -/
def strip_one_leading_slash_claim (s : String) : String :=
  match s.data with
  | '/' :: rest => String.mk rest
  | _ => s

/-- A payload whose `document_class` starts with two slashes. -/
def double_slash_payload : Payload := ⟨none, some ⟨none, some "//a", []⟩⟩

/-- Counterexample to claim C4 as stated: on `document_class = "//a"` the
code strips both leading slashes, while removing at most one would keep the
second. -/
theorem analyze_document_assessment_cex :
    (analyze_document double_slash_payload).assessment = "a" ∧
    strip_one_leading_slash_claim "//a" = "/a" ∧
    (analyze_document double_slash_payload).assessment ≠
      strip_one_leading_slash_claim "//a" := by
  refine ⟨rfl, rfl, ?_⟩
  decide

/-- Claim C4 as amended: the `assessment` field equals `document_class` with
every leading `'/'` character removed. -/
theorem analyze_document_assessment_law (data : Payload) :
    (analyze_document data).assessment =
      String.mk (((data.document.getD ⟨none, none, []⟩).document_class.getD
        "").data.dropWhile fun a => a == '/') :=
  rfl

end RiskScore

namespace RiskScore

/-! ### The identifier parser's raising input -/

/-- Model of Python's `str.isdigit` on one character at the code points this
development evaluates it at: the ASCII digits together with the superscript
two (code point 178), which `str.isdigit` accepts although `int()` rejects
it with a `ValueError`. -/
def pyIsDigitCharPython (c : Char) : Bool :=
  pyIsDigitChar c || decide (c.toNat = 178)

/-- Claim C5 records a defect of the code against the never-raises contract:
on the identifier `"x|²|y|z"` the guard at source line 17 takes the
`int(parts[1])` branch in Python, because the stripped points field `"²"`
satisfies `str.isdigit` — yet `"²"` is not a decimal-digit string, which is
exactly the case in which `int()` raises `ValueError`.  The last two
conjuncts show where the total model diverges from the program there: its
ASCII digit test sends this input to the `0` default instead of raising. -/
theorem parse_identifier_fields_raising_input :
    pyCount '|' "x|²|y|z".data = 3 ∧
    ((pySplit '|' "x|²|y|z".data).map pyStrip).getD 1 [] = ['²'] ∧
    pyIsDigitCharPython '²' = true ∧
    pyIsDigit ['²'] = false ∧
    (parse_identifier_fields "x|²|y|z").points = 0 := by
  refine ⟨?_, ?_, ?_, ?_, ?_⟩ <;> decide

/-! ### Claim relating document aggregates to the category metrics -/

/-- Summing points commutes with flattening a list of question lists. -/
theorem sum_points_flatten (l : List (List Question)) :
    (l.flatten.map Question.points).sum =
      (l.map fun qs => (qs.map Question.points).sum).sum := by
  induction l with
  | nil => rfl
  | cons a t ih =>
    rw [List.flatten_cons, List.map_append, List.sum_append, ih, List.map_cons,
      List.sum_cons]

/-- The KO-weighted score of two concatenated question lists is the sum of
the two scores. -/
theorem total_risk_append (a b : List Question) :
    calculate_total_risk_score (a ++ b) =
      calculate_total_risk_score a + calculate_total_risk_score b := by
  simp [calculate_total_risk_score, List.filter_append]

/-- The KO-weighted score of a flattened list of question lists is the sum of
the per-list scores. -/
theorem total_risk_flatten (l : List (List Question)) :
    calculate_total_risk_score l.flatten =
      (l.map calculate_total_risk_score).sum := by
  induction l with
  | nil => rfl
  | cons a t ih =>
    rw [List.flatten_cons, total_risk_append, ih, List.map_cons, List.sum_cons]

/-- Claim C10: the document-level `max_total_risk_points` and
`total_risk_score` equal the sums of the corresponding fields over the
per-category entries of the `categories` list. -/
theorem analyze_document_category_sums (data : Payload) :
    (analyze_document data).max_total_risk_points =
      ((analyze_document data).categories.map
        CategoryMetrics.max_total_risk_points).sum ∧
    (analyze_document data).total_risk_score =
      ((analyze_document data).categories.map
        CategoryMetrics.total_risk_score).sum := by
  constructor
  · show ((document_questions (data.document.getD ⟨none, none, []⟩).children).map
        Question.points).sum =
      (((data.document.getD ⟨none, none, []⟩).children.map
        calculate_category_metrics).map CategoryMetrics.max_total_risk_points).sum
    rw [document_questions, sum_points_flatten, List.map_map, List.map_map]
    rfl
  · show calculate_total_risk_score
        (document_questions (data.document.getD ⟨none, none, []⟩).children) =
      (((data.document.getD ⟨none, none, []⟩).children.map
        calculate_category_metrics).map CategoryMetrics.total_risk_score).sum
    rw [document_questions, total_risk_flatten, List.map_map, List.map_map]
    rfl

end RiskScore

namespace RiskScore

/-! ### The identifier parse round-trip -/

/-- Decimal digits of a natural number, most significant first: the model of
Python's `str()` on a non-negative int. -/
def natDigits (n : Nat) : List Char :=
  if _h : n < 10 then [Nat.digitChar n]
  else natDigits (n / 10) ++ [Nat.digitChar (n % 10)]
  termination_by n
  decreasing_by
    simp_wf
    omega

/-- Model of Python's `str()` on a bool: `"True"` or `"False"`. -/
def pyStrBool (b : Bool) : String :=
  if b then "True" else "False"

/-- The f-string of the round-trip property,
`f"Q | {points} | {is_ko} | {is_plausible}"`, as one character list. -/
def format_identifier (points : Nat) (ko pl : Bool) : String :=
  String.mk (['Q', ' ', '|', ' '] ++ natDigits points ++ [' ', '|', ' '] ++
    (pyStrBool ko).data ++ [' ', '|', ' '] ++ (pyStrBool pl).data)

/-- Every decimal digit character is an ASCII digit. -/
theorem digitChar_isDigit {m : Nat} (h : m < 10) :
    pyIsDigitChar (Nat.digitChar m) = true := by
  interval_cases m <;> decide

/-- The code point of a decimal digit character. -/
theorem digitChar_toNat {m : Nat} (h : m < 10) :
    (Nat.digitChar m).toNat = 48 + m := by
  interval_cases m <;> decide

/-- A decimal rendering is never empty. -/
theorem natDigits_ne_nil (n : Nat) : natDigits n ≠ [] := by
  unfold natDigits
  split <;> simp

/-- Every character of a decimal rendering is an ASCII digit. -/
theorem natDigits_all_digit (n : Nat) :
    ∀ c ∈ natDigits n, pyIsDigitChar c = true := by
  induction n using Nat.strong_induction_on with
  | _ n ih =>
    unfold natDigits
    split
    · next h =>
      intro c hc
      simp only [List.mem_singleton] at hc
      subst hc
      exact digitChar_isDigit h
    · next h =>
      intro c hc
      rcases List.mem_append.1 hc with h1 | h1
      · exact ih (n / 10) (by omega) c h1
      · simp only [List.mem_singleton] at h1
        subst h1
        exact digitChar_isDigit (Nat.mod_lt _ (by omega))

/-- Folding the decimal evaluation over a final digit. -/
theorem pyIntOfDigits_append (l : List Char) (c : Char) :
    pyIntOfDigits (l ++ [c]) = 10 * pyIntOfDigits l + (c.toNat - 48) := by
  simp [pyIntOfDigits, List.foldl_append]

/-- Evaluating a decimal rendering recovers the number. -/
theorem pyIntOfDigits_natDigits (n : Nat) : pyIntOfDigits (natDigits n) = n := by
  induction n using Nat.strong_induction_on with
  | _ n ih =>
    unfold natDigits
    split
    · next h =>
      simp [pyIntOfDigits, digitChar_toNat h]
    · next h =>
      rw [pyIntOfDigits_append, ih (n / 10) (by omega),
        digitChar_toNat (Nat.mod_lt _ (by omega))]
      omega

/-- An ASCII digit is not a pipe. -/
theorem digit_ne_pipe {c : Char} (h : pyIsDigitChar c = true) : c ≠ '|' := by
  intro e
  subst e
  exact absurd h (by decide)

/-- An ASCII digit is not whitespace. -/
theorem digit_not_space {c : Char} (h : pyIsDigitChar c = true) :
    pyIsSpace c = false := by
  simp only [pyIsDigitChar, Bool.and_eq_true, decide_eq_true_eq] at h
  simp only [pyIsSpace, decide_eq_false_iff_not, List.mem_cons,
    List.not_mem_nil, or_false]
  omega

end RiskScore

namespace RiskScore

/-- Splitting a list free of the separator yields that one part. -/
theorem pySplit_no_sep {c : Char} {l : List Char} (h : c ∉ l) :
    pySplit c l = [l] := by
  induction l with
  | nil => rfl
  | cons a t ih =>
    have ha : ¬(a = c) := fun e => h (e ▸ List.mem_cons_self a t)
    have ht : c ∉ t := fun hm => h (List.mem_cons_of_mem a hm)
    simp [pySplit, ha, ih ht]

/-- Splitting peels off a separator-free prefix as the first part. -/
theorem pySplit_sep {c : Char} {l : List Char} (h : c ∉ l) (rest : List Char) :
    pySplit c (l ++ c :: rest) = l :: pySplit c rest := by
  induction l with
  | nil => simp [pySplit]
  | cons a t ih =>
    have ha : ¬(a = c) := fun e => h (e ▸ List.mem_cons_self a t)
    have ht : c ∉ t := fun hm => h (List.mem_cons_of_mem a hm)
    simp [pySplit, ha, ih ht]

/-- Dropping along a prefix on which the predicate holds everywhere. -/
theorem dropWhile_all_append (p : Char → Bool) (pre r : List Char)
    (hpre : ∀ c ∈ pre, p c = true) :
    (pre ++ r).dropWhile p = r.dropWhile p := by
  induction pre with
  | nil => rfl
  | cons a t ih =>
    have := hpre a (List.mem_cons_self a t)
    simp only [List.cons_append, List.dropWhile_cons, this, if_true]
    exact ih fun c hc => hpre c (List.mem_cons_of_mem a hc)

/-- Dropping stops immediately on a list whose head fails the predicate. -/
theorem dropWhile_of_head_false (p : Char → Bool) (l : List Char) (hne : l ≠ [])
    (h : ∀ c ∈ l, p c = false) (r : List Char) :
    (l ++ r).dropWhile p = l ++ r := by
  cases l with
  | nil => exact absurd rfl hne
  | cons d t =>
    have := h d (List.mem_cons_self d t)
    simp [List.dropWhile_cons, this]

/-- Dropping stops immediately on a list whose head fails the predicate,
without a tail. -/
theorem dropWhile_of_head_false_nil (p : Char → Bool) (l : List Char)
    (hne : l ≠ []) (h : ∀ c ∈ l, p c = false) : l.dropWhile p = l := by
  have := dropWhile_of_head_false p l hne h []
  simpa using this

/-- Stripping removes exactly a whitespace pad around a pad-free core. -/
theorem pyStrip_pad (pre l post : List Char) (hne : l ≠ [])
    (hl : ∀ c ∈ l, pyIsSpace c = false)
    (hpre : ∀ c ∈ pre, pyIsSpace c = true)
    (hpost : ∀ c ∈ post, pyIsSpace c = true) :
    pyStrip (pre ++ (l ++ post)) = l := by
  unfold pyStrip
  rw [dropWhile_all_append _ _ _ hpre, dropWhile_of_head_false _ _ hne hl post,
    List.reverse_append]
  rw [dropWhile_all_append _ _ _ (by
    intro c hc
    exact hpost c (List.mem_reverse.1 hc))]
  rw [dropWhile_of_head_false_nil _ _ (by simpa using hne) (by
    intro c hc
    exact hl c (List.mem_reverse.1 hc))]
  exact List.reverse_reverse l

end RiskScore

namespace RiskScore

/-- A character other than space and absent from `l` is absent from `l`
padded with one space on each side. -/
theorem not_mem_space_pad {c : Char} {l : List Char} (hne : c ≠ ' ')
    (hl : c ∉ l) : c ∉ ' ' :: (l ++ [' ']) := by
  intro hm
  rcases List.mem_cons.1 hm with e | hm2
  · exact hne e
  · rcases List.mem_append.1 hm2 with hm3 | hm3
    · exact hl hm3
    · exact hne (List.mem_singleton.1 hm3)

/-- Parsing the formatted identifier, stated over the three rendered
fields. -/
theorem parse_format_core (D B1 B2 : List Char)
    (hDne : D ≠ []) (hD : ∀ c ∈ D, pyIsDigitChar c = true)
    (hB1ne : B1 ≠ []) (hB1pipe : '|' ∉ B1)
    (hB1space : ∀ c ∈ B1, pyIsSpace c = false)
    (hB2ne : B2 ≠ []) (hB2pipe : '|' ∉ B2)
    (hB2space : ∀ c ∈ B2, pyIsSpace c = false) :
    parse_identifier_fields (String.mk (['Q', ' ', '|', ' '] ++ D ++
        [' ', '|', ' '] ++ B1 ++ [' ', '|', ' '] ++ B2)) =
      ⟨pyIntOfDigits D, pyLower B1 == "true".data, pyLower B2 == "true".data⟩ := by
  have hDpipe : '|' ∉ D := fun hc => absurd (hD _ hc) (by decide)
  have hDspace : ∀ c ∈ D, pyIsSpace c = false := fun c hc => digit_not_space (hD c hc)
  have hassoc : ['Q', ' ', '|', ' '] ++ D ++ [' ', '|', ' '] ++ B1 ++
      [' ', '|', ' '] ++ B2 =
      ['Q', ' '] ++ '|' :: ((' ' :: (D ++ [' '])) ++
        '|' :: ((' ' :: (B1 ++ [' '])) ++ '|' :: (' ' :: B2))) := by
    simp
  have m1 : '|' ∉ ' ' :: (D ++ [' ']) := not_mem_space_pad (by decide) hDpipe
  have m2 : '|' ∉ ' ' :: (B1 ++ [' ']) := not_mem_space_pad (by decide) hB1pipe
  have m3 : '|' ∉ ' ' :: B2 := by
    intro hm
    rcases List.mem_cons.1 hm with e | hm2
    · exact absurd e (by decide)
    · exact hB2pipe hm2
  have hsplit : pySplit '|' (['Q', ' ', '|', ' '] ++ D ++ [' ', '|', ' '] ++ B1 ++
      [' ', '|', ' '] ++ B2) =
      [['Q', ' '], ' ' :: (D ++ [' ']), ' ' :: (B1 ++ [' ']), ' ' :: B2] := by
    rw [hassoc, pySplit_sep (show ('|' : Char) ∉ ['Q', ' '] by decide),
      pySplit_sep m1, pySplit_sep m2, pySplit_no_sep m3]
  have hmap : (pySplit '|' (['Q', ' ', '|', ' '] ++ D ++ [' ', '|', ' '] ++ B1 ++
      [' ', '|', ' '] ++ B2)).map pyStrip = [pyStrip ['Q', ' '], D, B1, B2] := by
    rw [hsplit]
    simp only [List.map_cons, List.map_nil]
    rw [show (' ' :: (D ++ [' '])) = [' '] ++ (D ++ [' ']) from rfl,
      pyStrip_pad [' '] D [' '] hDne hDspace (by decide) (by decide)]
    rw [show (' ' :: (B1 ++ [' '])) = [' '] ++ (B1 ++ [' ']) from rfl,
      pyStrip_pad [' '] B1 [' '] hB1ne hB1space (by decide) (by decide)]
    rw [show (' ' :: B2) = [' '] ++ (B2 ++ []) from by simp,
      pyStrip_pad [' '] B2 [] hB2ne hB2space (by decide) (by decide)]
  have hcount : pyCount '|' (['Q', ' ', '|', ' '] ++ D ++ [' ', '|', ' '] ++ B1 ++
      [' ', '|', ' '] ++ B2) = 3 := by
    have cD : D.count '|' = 0 := List.count_eq_zero.2 hDpipe
    have cB1 : B1.count '|' = 0 := List.count_eq_zero.2 hB1pipe
    have cB2 : B2.count '|' = 0 := List.count_eq_zero.2 hB2pipe
    simp [pyCount, List.count_append, cD, cB1, cB2]
  have hguard : ¬(String.mk (['Q', ' ', '|', ' '] ++ D ++ [' ', '|', ' '] ++ B1 ++
      [' ', '|', ' '] ++ B2) = "" ∨
      pyCount '|' (['Q', ' ', '|', ' '] ++ D ++ [' ', '|', ' '] ++ B1 ++
        [' ', '|', ' '] ++ B2) < 3) := by
    rintro (he | hlt)
    · have := congrArg String.data he
      simp only [string_mk_data] at this
      simp at this
    · rw [hcount] at hlt
      omega
  have hdig : pyIsDigit D = true := by
    rw [pyIsDigit]
    have h1 : D.isEmpty = false := by
      cases D with
      | nil => exact absurd rfl hDne
      | cons a t => rfl
    rw [h1]
    simpa [List.all_eq_true] using hD
  simp only [parse_identifier_fields, string_mk_data]
  rw [if_neg hguard, hmap]
  simp only [List.getD_cons_succ, List.getD_cons_zero]
  rw [hdig]
  rfl

end RiskScore

namespace RiskScore

/-- Claim C6: for every non-negative integer and pair of booleans, parsing
the formatted string `"Q | {points} | {is_ko} | {is_plausible}"` — with the
booleans rendered `"True"`/`"False"` — recovers exactly the same triple. -/
theorem parse_format_round_trip (points : Nat) (ko pl : Bool) :
    parse_identifier_fields (format_identifier points ko pl) =
      ⟨points, ko, pl⟩ := by
  rw [format_identifier]
  cases ko <;> cases pl <;>
    rw [parse_format_core (natDigits points) _ _ (natDigits_ne_nil points)
      (natDigits_all_digit points) (by decide) (by decide) (by decide)
      (by decide) (by decide) (by decide)] <;>
    rw [pyIntOfDigits_natDigits] <;>
    rfl

end RiskScore
